import Mathlib

/-!
Verification development for the Weather-Bot repository.

The repository consists of two Python scripts:
* `.github/scripts/bom_to_discord.py` — fetches BOM RSS (with two fallback
  sources, the last a CAP feed), deduplicates against `sent_warnings.json`,
  posts each new warning to a Discord webhook, and tracks a `NO_WARNINGS`
  sentinel for the "feed is empty" announcement.
* `scripts/bom_to_discord.py` — an HTML-scrape variant with a silent first
  run and an embed-based webhook message.

The definitions below are a shallow embedding of those scripts.  Network
transport, the XML/HTML parsing library and the JSON codec are external
collaborators: fetch outcomes, decoded JSON values and per-post webhook
responses are inputs of the model.  Python `set`s of identifiers are
modelled as `Finset String`; exceptions as explicit failure values.
-/

/-- One normalized alert record, as built by `parse_bom_rss` /
`fetch_cap_fallback` (dict with keys `id`, `title`, `description`, `link`). -/
structure Alert where
  id : String
  title : String
  description : String
  link : String
deriving Repr, DecidableEq

/-- The `"NO_WARNINGS"` placeholder id used by `.github/scripts` to record
that the empty feed was already announced. -/
def NO_WARNINGS : String := "NO_WARNINGS"

/-- `BOM_WARNINGS_URL` from `scripts/bom_to_discord.py`. -/
def BOM_WARNINGS_URL : String := "https://www.bom.gov.au/products/warn_qld.shtml"

/-- `QLD_CAP_FALLBACK` from `.github/scripts/bom_to_discord.py`. -/
def QLD_CAP_FALLBACK : String :=
  "https://publiccontent-gis-psba-qld-gov-au.s3.ap-southeast-2.amazonaws.com/content/Feeds/StormFloodCycloneWarnings/StormWarnings_capau.xml"

/-- Models Python string slicing `s[:n]` (the first `n` code points). -/
def pyTake (s : String) (n : Nat) : String := String.mk (s.data.take n)

/-- Models Python `str.strip()`: drop whitespace from both ends. -/
def pyStrip (s : String) : String :=
  String.mk (((s.data.dropWhile Char.isWhitespace).reverse.dropWhile
    Char.isWhitespace).reverse)

/-- The message text built by `send_to_discord_warning` in
`.github/scripts/bom_to_discord.py`:
`text = f"⚠️ **{title}**"`, then `+= f"\n{link}"` when `link` is truthy,
else `+= f"\n{desc[:1800]}"` when `desc` is truthy. -/
def warningText (title link desc : String) : String :=
  let text := "⚠️ **" ++ title ++ "**"
  if link ≠ "" then text ++ "\n" ++ link
  else if desc ≠ "" then text ++ "\n" ++ pyTake desc 1800
  else text

/-- Outcome of one webhook call.  `skipped` models the "webhook not set"
branch that only prints locally; `posted` carries the content actually
POSTed; `httpError` models `raise_for_status` raising; `exitError` models
`raise SystemExit`. -/
inductive SendOutcome where
  | skipped
  | posted (content : String)
  | httpError
  | exitError (msg : String)
deriving Repr, DecidableEq

/-- Whether an outcome is an exception that aborts the run. -/
def sendFailed : SendOutcome → Bool
  | SendOutcome.httpError => true
  | SendOutcome.exitError _ => true
  | _ => false

/-- `send_to_discord_content` from `.github/scripts`: with no webhook it
prints and returns; otherwise it POSTs `{"content": content}` and
`raise_for_status` raises exactly when the response is non-2xx, which the
model's `postOk` input encodes. -/
def send_to_discord_content (webhook : Option String) (postOk : Bool)
    (content : String) : SendOutcome :=
  match webhook with
  | none => SendOutcome.skipped
  | some _ => if postOk then SendOutcome.posted content else SendOutcome.httpError

/-- `send_to_discord_warning` from `.github/scripts`: with no webhook it
prints and returns; otherwise it POSTs the `warningText` message. -/
def send_to_discord_warning (webhook : Option String) (postOk : Bool)
    (title link desc : String) : SendOutcome :=
  match webhook with
  | none => SendOutcome.skipped
  | some _ =>
    if postOk then SendOutcome.posted (warningText title link desc)
    else SendOutcome.httpError

/-- The embed of the JSON payload built by `send_discord` in
`scripts/bom_to_discord.py`. -/
structure Embed where
  title : String
  description : String
  url : String
  color : Nat
  footerText : String
deriving Repr, DecidableEq

/-- The payload embed of `send_discord` (`scripts/bom_to_discord.py`). -/
def scriptsPayload (warning_text : String) : Embed :=
  { title := "⚠️ New BOM Warning"
    description := warning_text
    url := BOM_WARNINGS_URL
    color := 0xFF6600
    footerText := "Source: Bureau of Meteorology – Queensland" }

/-- `send_discord` from `scripts/bom_to_discord.py`: with no webhook it
raises `SystemExit`; otherwise it POSTs the embed payload and
`raise_for_status` raises on a non-2xx response. -/
def send_discord (webhook : Option String) (postOk : Bool)
    (warning_text : String) : SendOutcome :=
  match webhook with
  | none => SendOutcome.exitError "DISCORD_WEBHOOK_URL not set."
  | some _ =>
    if postOk then SendOutcome.posted (scriptsPayload warning_text).description
    else SendOutcome.httpError

/-- Decoded JSON values, the output of the external `json` codec. -/
inductive Json where
  | null
  | bool (b : Bool)
  | num (n : Int)
  | str (s : String)
  | arr (xs : List Json)
  | obj (fields : List (String × Json))

/-- The string content of a JSON value, if it is a string. -/
def jsonAsStr : Json → Option String
  | Json.str s => some s
  | _ => none

/-- Whether a JSON value decodes to a hashable Python value (lists and
dicts are unhashable and make `set(...)` raise `TypeError`). -/
def jsonHashable : Json → Bool
  | Json.arr _ => false
  | Json.obj _ => false
  | _ => true

/-- Models Python `set(x)` on a decoded JSON value, observed through
membership of string identifiers: a list of hashables keeps its string
elements (non-strings can never equal a string id), a string yields its
one-character substrings, a dict yields its keys, and anything else
(non-iterable, or a list with an unhashable element) raises `TypeError`,
which the callers catch and turn into the empty set. -/
def setOfJson : Json → Finset String
  | Json.arr xs =>
      if xs.all jsonHashable then (xs.filterMap jsonAsStr).toFinset else ∅
  | Json.str s => (s.data.map (fun c => String.mk [c])).toFinset
  | Json.obj fields => (fields.map Prod.fst).toFinset
  | _ => ∅

/-- `load_sent_ids` from `.github/scripts/bom_to_discord.py`.  The input is
`none` when the state file does not exist, `some none` when reading or
`json.load` raises (corrupt/unreadable file), and `some (some j)` when it
decodes to `j`.  `data.get("sent_ids", [])` raises `AttributeError` on a
non-dict, caught by the bare `except` along with every other extraction
error, yielding the empty set. -/
def load_sent_ids (file : Option (Option Json)) : Finset String :=
  match file with
  | none => ∅
  | some none => ∅
  | some (some (Json.obj fields)) =>
      setOfJson ((List.lookup "sent_ids" fields).getD (Json.arr []))
  | some (some _) => ∅

/-- `load_sent` from `scripts/bom_to_discord.py`: `set(json.loads(text))`
with every exception mapped to the empty set, and the missing-file case
returning the empty set. -/
def load_sent (file : Option (Option Json)) : Finset String :=
  match file with
  | none => ∅
  | some none => ∅
  | some (some j) => setOfJson j

/-- `save_sent_ids` from `.github/scripts`: writes
`{"sent_ids": sorted(ids)}`. -/
def save_sent_ids (ids : Finset String) : Json :=
  Json.obj [("sent_ids", Json.arr ((ids.sort (· ≤ ·)).map Json.str))]

/-- One `<item>` of the BOM RSS feed as seen by `parse_bom_rss`: the raw
text of the `title`, `description` and `link` elements, and the raw text of
the `guid` element when present (`none` models an absent `<guid>`). -/
structure RssItem where
  title : String
  description : String
  link : String
  guid : Option String
deriving Repr, DecidableEq

/-- `parse_bom_rss` from `.github/scripts/bom_to_discord.py`.  Each field
is `.strip()`ed; `guid = (guid_text or "") or link or title` (Python `or`
takes the first non-empty string); `title` defaults to `"BOM warning"`. -/
def parse_bom_rss (items : List RssItem) : List Alert :=
  items.map fun item =>
    let title := pyStrip item.title
    let description := pyStrip item.description
    let link := pyStrip item.link
    let guidStr := (item.guid.map pyStrip).getD ""
    let guid := if guidStr ≠ "" then guidStr else if link ≠ "" then link else title
    { id := guid
      title := if title ≠ "" then title else "BOM warning"
      description := description
      link := link }

/-- One `<alert>` of the QLD CAP feed as seen by `fetch_cap_fallback`: the
raw text of the `identifier`, `headline`, `description` and `web` elements.
`none` models an element that is absent or whose `.text` is falsy (the code
tests `el is not None and el.text` before stripping). -/
structure CapAlert where
  identifier : Option String
  headline : Option String
  description : Option String
  web : Option String
deriving Repr, DecidableEq

/-- The per-element extraction used by `fetch_cap_fallback`:
`el.text.strip() if el is not None and el.text else dflt`. -/
def capText (el : Option String) (dflt : String) : String :=
  match el with
  | some t => if t ≠ "" then pyStrip t else dflt
  | none => dflt

/-- The parsing part of `fetch_cap_fallback` from `.github/scripts`:
`headline` defaults to `"Weather Warning"`, `link` to the feed URL, and
`id = identifier or headline` (the `web` element is never used for the
id). -/
def fetch_cap_parse (alertsXml : List CapAlert) : List Alert :=
  alertsXml.map fun a =>
    let identifier := capText a.identifier ""
    let headline := capText a.headline "Weather Warning"
    let desc := capText a.description ""
    let link := capText a.web QLD_CAP_FALLBACK
    { id := if identifier ≠ "" then identifier else headline
      title := headline
      description := desc
      link := link }

/-- The source-fallback logic of `main` in `.github/scripts` (steps 1–3).
Each `sᵢ : Option (List Alert)` is the outcome of source `i`'s fetch+parse
(`none` when it raised).  After each step the code tests
`if not warnings_list:` — so a source that *succeeds with an empty list*
is passed over exactly like a failed one — and when the final CAP source
raises, the error notification is sent and the exception re-raised
(result `none`). -/
def resolveChain (s1 s2 s3 : Option (List Alert)) : Option (List Alert) :=
  let w1 := s1.getD []
  if w1 ≠ [] then some w1
  else
    let w2 := s2.getD []
    if w2 ≠ [] then some w2
    else
      match s3 with
      | none => none
      | some w3 => some w3

/-- Result of one run of `main`: `dispatched` lists the ids whose warning
send call returned (in order), `clearedMsg` records a successful
"no current warnings" announcement, `saved` is the state written by
`save_sent_ids` (`none` when the run ended without saving), and `failed`
records an uncaught exception. -/
structure RunResult where
  dispatched : List String
  clearedMsg : Bool
  saved : Option (Finset String)
  failed : Bool
deriving DecidableEq

/-- The notification loop of `main` in `.github/scripts` (lines 180–188):
skip ids already in `sent_ids`, send, add the id; an exception from the
send aborts the loop (and the whole run).  Returns
(successfully dispatched ids, final `sent_ids`, aborted?). -/
def notifyLoop (send : Alert → SendOutcome) :
    List Alert → Finset String → List String × Finset String × Bool
  | [], s => ([], s, false)
  | w :: ws, s =>
    if w.id ∈ s then notifyLoop send ws s
    else if sendFailed (send w) then ([], s, true)
    else
      let r := notifyLoop send ws (insert w.id s)
      (w.id :: r.1, r.2.1, r.2.2)

/-- `main` of `.github/scripts/bom_to_discord.py` after the source chain
resolved to `warnings_list`.  Empty feed: announce once, guarded by the
`NO_WARNINGS` sentinel (the sentinel is *added* to the set).  Non-empty
feed: drop the sentinel, run the notification loop, save. -/
def runGH (webhook : Option String) (postOk : String → Bool) (contentOk : Bool)
    (sent : Finset String) (warnings_list : List Alert) : RunResult :=
  if warnings_list = [] then
    if NO_WARNINGS ∉ sent then
      if sendFailed (send_to_discord_content webhook contentOk
          "ℹ️ No current QLD BOM warnings.") then
        { dispatched := [], clearedMsg := false, saved := none, failed := true }
      else
        { dispatched := [], clearedMsg := true
          saved := some (insert NO_WARNINGS sent), failed := false }
    else
      { dispatched := [], clearedMsg := false, saved := none, failed := false }
  else
    let sent' := sent.erase NO_WARNINGS
    let r := notifyLoop
      (fun w => send_to_discord_warning webhook (postOk w.id) w.title w.link w.description)
      warnings_list sent'
    if r.2.2 then
      { dispatched := r.1, clearedMsg := false, saved := none, failed := true }
    else
      { dispatched := r.1, clearedMsg := false, saved := some r.2.1, failed := false }

/-- Result of one run of the `scripts/` variant. -/
structure RunResultS where
  dispatched : List String
  saved : Option (Finset String)
  failed : Bool
deriving DecidableEq

/-- The notification loop of `main` in `scripts/bom_to_discord.py` over the
precomputed `new_ones` list: send, then add; an exception (including the
`SystemExit` of an unset webhook) aborts the run. -/
def scriptsLoop (send : String → SendOutcome) :
    List String → Finset String → List String × Finset String × Bool
  | [], s => ([], s, false)
  | w :: ws, s =>
    if sendFailed (send w) then ([], s, true)
    else
      let r := scriptsLoop send ws (insert w s)
      (w :: r.1, r.2.1, r.2.2)

/-- `main` of `scripts/bom_to_discord.py` given the scraped warning texts
(each warning text is its own identifier).  First run with a non-empty
feed records the set silently; otherwise the new warnings are sent one by
one and the grown set is saved. -/
def runScripts (webhook : Option String) (postOk : String → Bool)
    (sent : Finset String) (current_warnings : List String) : RunResultS :=
  if sent.card = 0 ∧ current_warnings ≠ [] then
    { dispatched := [], saved := some current_warnings.toFinset, failed := false }
  else
    let new_ones := current_warnings.filter (fun w => w ∉ sent)
    if new_ones = [] then
      { dispatched := [], saved := none, failed := false }
    else
      let r := scriptsLoop (fun w => send_discord webhook (postOk w) w) new_ones sent
      if r.2.2 then
        { dispatched := r.1, saved := none, failed := true }
      else
        { dispatched := r.1, saved := some r.2.1, failed := false }

/-- The external inputs of one scheduled invocation of `.github/scripts`:
environment webhook, per-alert and content webhook responses, and the
resolved feed. -/
structure RunInput where
  webhook : Option String
  postOk : String → Bool
  contentOk : Bool
  feed : List Alert

/-- A sequence of runs of `.github/scripts` threading the state file: a run
that ends without saving leaves the file unchanged. -/
def runSeq : Finset String → List RunInput → List RunResult
  | _, [] => []
  | st, inp :: rest =>
    let r := runGH inp.webhook inp.postOk inp.contentOk st inp.feed
    r :: runSeq (r.saved.getD st) rest

/-! ### Helper lemmas about the notification loops and runs -/

theorem notifyLoop_dispatch_not_mem (send : Alert → SendOutcome) :
    ∀ (ws : List Alert) (s : Finset String) (id : String),
      id ∈ (notifyLoop send ws s).1 → id ∉ s := by
  intro ws
  induction ws with
  | nil => intro s id h; simp [notifyLoop] at h
  | cons w ws ih =>
    intro s id h
    by_cases hmem : w.id ∈ s
    · simp only [notifyLoop, if_pos hmem] at h
      exact ih s id h
    · simp only [notifyLoop, if_neg hmem] at h
      by_cases hf : sendFailed (send w) = true
      · simp [hf] at h
      · simp only [Bool.not_eq_true] at hf
        simp only [hf, Bool.false_eq_true, if_false, List.mem_cons] at h
        rcases h with h | h
        · subst h; exact hmem
        · intro hs
          exact ih _ id h (Finset.mem_insert_of_mem hs)

theorem notifyLoop_mono (send : Alert → SendOutcome) :
    ∀ (ws : List Alert) (s : Finset String),
      (notifyLoop send ws s).2.2 = false → s ⊆ (notifyLoop send ws s).2.1 := by
  intro ws
  induction ws with
  | nil => intro s _; simp [notifyLoop]
  | cons w ws ih =>
    intro s hab
    by_cases hmem : w.id ∈ s
    · simp only [notifyLoop, if_pos hmem] at hab ⊢
      exact ih s hab
    · by_cases hf : sendFailed (send w) = true
      · simp [notifyLoop, if_neg hmem, hf] at hab
      · simp only [Bool.not_eq_true] at hf
        simp only [notifyLoop, if_neg hmem, hf, Bool.false_eq_true, if_false] at hab ⊢
        exact fun x hx =>
          ih (insert w.id s) hab (Finset.mem_insert_of_mem hx)

theorem notifyLoop_dispatch_saved (send : Alert → SendOutcome) :
    ∀ (ws : List Alert) (s : Finset String),
      (notifyLoop send ws s).2.2 = false →
      ∀ id ∈ (notifyLoop send ws s).1, id ∈ (notifyLoop send ws s).2.1 := by
  intro ws
  induction ws with
  | nil => intro s _ id h; simp [notifyLoop] at h
  | cons w ws ih =>
    intro s hab id h
    by_cases hmem : w.id ∈ s
    · simp only [notifyLoop, if_pos hmem] at hab h ⊢
      exact ih s hab id h
    · by_cases hf : sendFailed (send w) = true
      · simp [notifyLoop, if_neg hmem, hf] at hab
      · simp only [Bool.not_eq_true] at hf
        simp only [notifyLoop, if_neg hmem, hf, Bool.false_eq_true, if_false,
          List.mem_cons] at hab h ⊢
        rcases h with h | h
        · subst h
          exact notifyLoop_mono send ws (insert w.id s) hab (Finset.mem_insert_self _ _)
        · exact ih (insert w.id s) hab id h

theorem notifyLoop_preserve_not_mem (send : Alert → SendOutcome) (x : String) :
    ∀ (ws : List Alert) (s : Finset String),
      (∀ w ∈ ws, w.id ≠ x) → x ∉ s → x ∉ (notifyLoop send ws s).2.1 := by
  intro ws
  induction ws with
  | nil => intro s _ hx; simpa [notifyLoop] using hx
  | cons w ws ih =>
    intro s hid hx
    by_cases hmem : w.id ∈ s
    · simp only [notifyLoop, if_pos hmem]
      exact ih s (fun v hv => hid v (List.mem_cons_of_mem _ hv)) hx
    · by_cases hf : sendFailed (send w) = true
      · simpa [notifyLoop, if_neg hmem, hf] using hx
      · simp only [Bool.not_eq_true] at hf
        simp only [notifyLoop, if_neg hmem, hf, Bool.false_eq_true, if_false]
        refine ih (insert w.id s) (fun v hv => hid v (List.mem_cons_of_mem _ hv)) ?_
        intro hmem'
        rcases Finset.mem_insert.mp hmem' with h | h
        · exact hid w (List.mem_cons_self _ _) h.symm
        · exact hx h

theorem notifyLoop_all_ok (send : Alert → SendOutcome) :
    ∀ (ws : List Alert) (s : Finset String),
      (∀ w ∈ ws, sendFailed (send w) = false) →
      (notifyLoop send ws s).2.2 = false ∧
      (notifyLoop send ws s).2.1 = s ∪ (ws.map Alert.id).toFinset ∧
      (notifyLoop send ws s).1.Nodup ∧
      ∀ id, id ∈ (notifyLoop send ws s).1 ↔ id ∈ ws.map Alert.id ∧ id ∉ s := by
  intro ws
  induction ws with
  | nil => intro s _; simp [notifyLoop]
  | cons w ws ih =>
    intro s hok
    have hw : sendFailed (send w) = false := hok w (List.mem_cons_self _ _)
    have hrest : ∀ v ∈ ws, sendFailed (send v) = false :=
      fun v hv => hok v (List.mem_cons_of_mem _ hv)
    by_cases hmem : w.id ∈ s
    · obtain ⟨h1, h2, h3, h4⟩ := ih s hrest
      refine ⟨by simpa [notifyLoop, if_pos hmem] using h1, ?_, ?_, ?_⟩
      · simp only [notifyLoop, if_pos hmem, h2, List.map_cons, List.toFinset_cons]
        rw [Finset.union_insert, Finset.insert_eq_self.mpr (Finset.mem_union_left _ hmem)]
      · simpa [notifyLoop, if_pos hmem] using h3
      · intro id
        simp only [notifyLoop, if_pos hmem, h4, List.map_cons, List.mem_cons]
        constructor
        · exact fun ⟨h5, h6⟩ => ⟨Or.inr h5, h6⟩
        · rintro ⟨h5 | h5, h6⟩
          · exact absurd hmem (h5 ▸ h6)
          · exact ⟨h5, h6⟩
    · obtain ⟨h1, h2, h3, h4⟩ := ih (insert w.id s) hrest
      refine ⟨by simpa [notifyLoop, if_neg hmem, hw] using h1, ?_, ?_, ?_⟩
      · simp only [notifyLoop, if_neg hmem, hw, Bool.false_eq_true, if_false, h2,
          List.map_cons, List.toFinset_cons]
        rw [Finset.insert_union, Finset.union_insert]
      · simp only [notifyLoop, if_neg hmem, hw, Bool.false_eq_true, if_false,
          List.nodup_cons]
        refine ⟨fun hmem' => ?_, h3⟩
        exact ((h4 w.id).mp hmem').2 (Finset.mem_insert_self _ _)
      · intro id
        simp only [notifyLoop, if_neg hmem, hw, Bool.false_eq_true, if_false,
          List.mem_cons, h4, List.map_cons, Finset.mem_insert]
        constructor
        · rintro (h5 | ⟨h5, h6⟩)
          · exact ⟨Or.inl h5, h5 ▸ hmem⟩
          · exact ⟨Or.inr h5, fun hs => h6 (Or.inr hs)⟩
        · rintro ⟨h5 | h5, h6⟩
          · exact Or.inl h5
          · by_cases hw' : id = w.id
            · exact Or.inl hw'
            · exact Or.inr ⟨h5, fun hs => (hs.elim hw' h6)⟩

theorem scriptsLoop_all_ok (send : String → SendOutcome) :
    ∀ (ws : List String) (s : Finset String),
      (∀ w ∈ ws, sendFailed (send w) = false) →
      (scriptsLoop send ws s).2.2 = false ∧
      (scriptsLoop send ws s).1 = ws ∧
      (scriptsLoop send ws s).2.1 = s ∪ ws.toFinset := by
  intro ws
  induction ws with
  | nil => intro s _; simp [scriptsLoop]
  | cons w ws ih =>
    intro s hok
    have hw : sendFailed (send w) = false := hok w (List.mem_cons_self _ _)
    obtain ⟨h1, h2, h3⟩ :=
      ih (insert w s) (fun v hv => hok v (List.mem_cons_of_mem _ hv))
    refine ⟨by simpa [scriptsLoop, hw] using h1, ?_, ?_⟩
    · simp [scriptsLoop, hw, h2]
    · simp only [scriptsLoop, hw, Bool.false_eq_true, if_false, h3,
        List.toFinset_cons]
      rw [Finset.insert_union, Finset.union_insert]

theorem runGH_mono (webhook : Option String) (postOk : String → Bool)
    (contentOk : Bool) (sent : Finset String) (ws : List Alert) (id : String)
    (hid : id ≠ NO_WARNINGS) (hmem : id ∈ sent) :
    id ∈ (runGH webhook postOk contentOk sent ws).saved.getD sent := by
  by_cases hw : ws = []
  · subst hw
    by_cases hs : NO_WARNINGS ∉ sent
    · by_cases hc : sendFailed (send_to_discord_content webhook contentOk
        "ℹ️ No current QLD BOM warnings.") = true
      · simpa [runGH, hs, hc] using hmem
      · simp only [Bool.not_eq_true] at hc
        simp [runGH, hs, hc]
        exact Or.inr hmem
    · simpa [runGH, hs] using hmem
  · have hmem' : id ∈ sent.erase NO_WARNINGS := Finset.mem_erase.mpr ⟨hid, hmem⟩
    set send := fun w : Alert =>
      send_to_discord_warning webhook (postOk w.id) w.title w.link w.description
    by_cases hab : (notifyLoop send ws (sent.erase NO_WARNINGS)).2.2 = true
    · simpa [runGH, hw, hab] using hmem
    · simp only [Bool.not_eq_true] at hab
      simp only [runGH, hw, if_neg hw, hab, Bool.false_eq_true, if_false,
        Option.getD_some]
      exact notifyLoop_mono send ws (sent.erase NO_WARNINGS) hab hmem'

theorem runGH_dispatch_not_mem (webhook : Option String) (postOk : String → Bool)
    (contentOk : Bool) (sent : Finset String) (ws : List Alert) (id : String)
    (hid : id ≠ NO_WARNINGS)
    (hd : id ∈ (runGH webhook postOk contentOk sent ws).dispatched) :
    id ∉ sent := by
  by_cases hw : ws = []
  · subst hw
    by_cases hs : NO_WARNINGS ∉ sent
    · by_cases hc : sendFailed (send_to_discord_content webhook contentOk
        "ℹ️ No current QLD BOM warnings.") = true
      · simp [runGH, hs, hc] at hd
      · simp only [Bool.not_eq_true] at hc
        simp [runGH, hs, hc] at hd
    · simp [runGH, hs] at hd
  · set send := fun w : Alert =>
      send_to_discord_warning webhook (postOk w.id) w.title w.link w.description
    have hnm : id ∉ sent.erase NO_WARNINGS := by
      by_cases hab : (notifyLoop send ws (sent.erase NO_WARNINGS)).2.2 = true
      · refine notifyLoop_dispatch_not_mem send ws (sent.erase NO_WARNINGS) id ?_
        simpa [runGH, hw, hab] using hd
      · simp only [Bool.not_eq_true] at hab
        refine notifyLoop_dispatch_not_mem send ws (sent.erase NO_WARNINGS) id ?_
        simpa [runGH, hw, hab] using hd
    intro hmem
    exact hnm (Finset.mem_erase.mpr ⟨hid, hmem⟩)

theorem runGH_dispatch_saved (webhook : Option String) (postOk : String → Bool)
    (contentOk : Bool) (sent : Finset String) (ws : List Alert) (id : String)
    (hfail : (runGH webhook postOk contentOk sent ws).failed = false)
    (hd : id ∈ (runGH webhook postOk contentOk sent ws).dispatched) :
    id ∈ (runGH webhook postOk contentOk sent ws).saved.getD sent := by
  by_cases hw : ws = []
  · subst hw
    by_cases hs : NO_WARNINGS ∉ sent
    · by_cases hc : sendFailed (send_to_discord_content webhook contentOk
        "ℹ️ No current QLD BOM warnings.") = true
      · simp [runGH, hs, hc] at hd
      · simp only [Bool.not_eq_true] at hc
        simp [runGH, hs, hc] at hd
    · simp [runGH, hs] at hd
  · set send := fun w : Alert =>
      send_to_discord_warning webhook (postOk w.id) w.title w.link w.description
    by_cases hab : (notifyLoop send ws (sent.erase NO_WARNINGS)).2.2 = true
    · simp [runGH, hw, hab] at hfail
    · simp only [Bool.not_eq_true] at hab
      simp only [runGH, hw, if_neg hw, hab, Bool.false_eq_true, if_false,
        Option.getD_some] at hd ⊢
      exact notifyLoop_dispatch_saved send ws (sent.erase NO_WARNINGS) hab id hd

theorem runSeq_not_dispatched_of_mem (id : String) (hid : id ≠ NO_WARNINGS) :
    ∀ (inputs : List RunInput) (st : Finset String), id ∈ st →
      ∀ r ∈ runSeq st inputs, id ∉ r.dispatched := by
  intro inputs
  induction inputs with
  | nil => intro st _ r hr; simp [runSeq] at hr
  | cons inp rest ih =>
    intro st hst r hr
    simp only [runSeq, List.mem_cons] at hr
    rcases hr with hr | hr
    · subst hr
      intro hd
      exact runGH_dispatch_not_mem inp.webhook inp.postOk inp.contentOk st
        inp.feed id hid hd hst
    · exact ih _ (runGH_mono inp.webhook inp.postOk inp.contentOk st inp.feed
        id hid hst) r hr

/-! ### Claim theorems -/

/-- Claim C1, amended: on a run whose loaded state is empty (no ids, no
sentinel) and whose feed is non-empty, the `scripts/` variant dispatches
zero notifications and persists exactly the current ids; the
`.github/scripts` variant also persists exactly the current ids but has no
silent initialisation — it dispatches one notification per distinct
current id. -/
theorem spec_C1 :
    (∀ (webhook : Option String) (postOk : String → Bool)
        (current : List String), current ≠ [] →
      runScripts webhook postOk ∅ current =
        ⟨[], some current.toFinset, false⟩)
    ∧ ∀ (webhook : Option String) (postOk : String → Bool) (contentOk : Bool)
        (ws : List Alert), ws ≠ [] → (∀ id, postOk id = true) →
      (runGH webhook postOk contentOk ∅ ws).failed = false
      ∧ (runGH webhook postOk contentOk ∅ ws).saved
          = some (ws.map Alert.id).toFinset
      ∧ (runGH webhook postOk contentOk ∅ ws).dispatched ≠ []
      ∧ (∀ id, id ∈ (runGH webhook postOk contentOk ∅ ws).dispatched
          ↔ id ∈ ws.map Alert.id)
      ∧ (runGH webhook postOk contentOk ∅ ws).dispatched.Nodup := by
  constructor
  · intro webhook postOk current hne
    simp [runScripts, hne]
  · intro webhook postOk contentOk ws hne hpk
    have hok : ∀ w ∈ ws, sendFailed (send_to_discord_warning webhook
        (postOk w.id) w.title w.link w.description) = false := by
      intro w _
      rw [hpk w.id]
      cases webhook <;> simp [send_to_discord_warning, sendFailed]
    obtain ⟨h1, h2, h3, h4⟩ := notifyLoop_all_ok
      (fun w => send_to_discord_warning webhook (postOk w.id)
        w.title w.link w.description)
      ws ((∅ : Finset String).erase NO_WARNINGS) hok
    simp only [Finset.erase_empty] at h1 h2 h3 h4
    have heq : runGH webhook postOk contentOk ∅ ws =
        ⟨(notifyLoop (fun w => send_to_discord_warning webhook (postOk w.id)
            w.title w.link w.description) ws (∅ : Finset String)).1,
          false,
          some (notifyLoop (fun w => send_to_discord_warning webhook (postOk w.id)
            w.title w.link w.description) ws (∅ : Finset String)).2.1,
          false⟩ := by
      simp [runGH, hne, h1]
    rw [heq]
    refine ⟨rfl, ?_, ?_, ?_, h3⟩
    · rw [h2, Finset.empty_union]
    · obtain ⟨w0, hw0⟩ := List.exists_mem_of_ne_nil ws hne
      refine List.ne_nil_of_mem ((h4 w0.id).mpr ⟨List.mem_map_of_mem _ hw0, ?_⟩)
      simp
    · intro id
      rw [h4 id]
      simp

/-- Witness for C1 at a concrete input. -/
theorem spec_C1_w :
    runScripts (some "W") (fun _ => true) ∅ ["A1"]
      = ⟨[], some (["A1"] : List String).toFinset, false⟩
    ∧ (runGH (some "W") (fun _ => true) true ∅
        [⟨"A1", "Severe Thunderstorm Warning", "", ""⟩]).saved
      = some (([⟨"A1", "Severe Thunderstorm Warning", "", ""⟩] : List Alert).map
          Alert.id).toFinset :=
  ⟨spec_C1.1 (some "W") (fun _ => true) ["A1"] (by decide),
   (spec_C1.2 (some "W") (fun _ => true) true
     [⟨"A1", "Severe Thunderstorm Warning", "", ""⟩] (by decide)
     (fun _ => rfl)).2.1⟩

/-- Counterexample to C1 as stated: a `.github/scripts` run with empty
loaded state and a non-empty feed dispatches one notification, not zero. -/
theorem spec_C1_cx :
    (runGH (some "W") (fun _ => true) true ∅
      [⟨"A1", "Severe Thunderstorm Warning", "", ""⟩]).dispatched = ["A1"]
    ∧ (["A1"] : List String) ≠ [] := by decide

/-- Claim C2, amended: on a non-first run both variants dispatch one
notification per id in ids(current) − ids(sent), but the persisted state
is the union of the prior ids (minus the sentinel in the `.github/scripts`
variant) with the current ids — an add-only policy, not the full replace
the claim states: ids absent from the current feed are kept, not
dropped. -/
theorem spec_C2 :
    (∀ (webhook : Option String) (postOk : String → Bool) (contentOk : Bool)
        (sent : Finset String) (ws : List Alert), ws ≠ [] →
        (∀ id, postOk id = true) →
      (runGH webhook postOk contentOk sent ws).saved
          = some (sent.erase NO_WARNINGS ∪ (ws.map Alert.id).toFinset)
      ∧ ∀ id, id ∈ (runGH webhook postOk contentOk sent ws).dispatched
          ↔ id ∈ ws.map Alert.id ∧ id ∉ sent.erase NO_WARNINGS)
    ∧ ∀ (webhook : Option String) (postOk : String → Bool)
        (sent : Finset String) (current : List String), sent ≠ ∅ →
        webhook ≠ none → (∀ w, postOk w = true) →
      (runScripts webhook postOk sent current).dispatched
          = current.filter (fun w => w ∉ sent)
      ∧ (runScripts webhook postOk sent current).saved.getD sent
          = sent ∪ current.toFinset := by
  constructor
  · intro webhook postOk contentOk sent ws hne hpk
    have hok : ∀ w ∈ ws, sendFailed (send_to_discord_warning webhook
        (postOk w.id) w.title w.link w.description) = false := by
      intro w _
      rw [hpk w.id]
      cases webhook <;> simp [send_to_discord_warning, sendFailed]
    obtain ⟨h1, h2, _, h4⟩ := notifyLoop_all_ok
      (fun w => send_to_discord_warning webhook (postOk w.id)
        w.title w.link w.description)
      ws (sent.erase NO_WARNINGS) hok
    constructor
    · simp only [runGH, if_neg hne, h1, Bool.false_eq_true, if_false]
      rw [h2]
    · intro id
      have hd : (runGH webhook postOk contentOk sent ws).dispatched =
          (notifyLoop (fun w => send_to_discord_warning webhook (postOk w.id)
            w.title w.link w.description) ws (sent.erase NO_WARNINGS)).1 := by
        simp only [runGH, if_neg hne, h1, Bool.false_eq_true, if_false]
      rw [hd, h4 id]
  · intro webhook postOk sent current hsent hwh hpk
    have hcard : ¬(sent.card = 0 ∧ current ≠ []) := by
      rintro ⟨hc, -⟩
      exact hsent (Finset.card_eq_zero.mp hc)
    by_cases hnew : current.filter (fun w => w ∉ sent) = []
    · refine ⟨?_, ?_⟩
      · simp only [runScripts, if_neg hcard, if_pos hnew]
        exact hnew.symm
      · have hsub : current.toFinset ⊆ sent := by
          intro x hx
          rw [List.mem_toFinset] at hx
          have := List.filter_eq_nil_iff.mp hnew x hx
          simpa using this
        simp only [runScripts, if_neg hcard, if_pos hnew, Option.getD_none]
        exact (Finset.union_eq_left.mpr hsub).symm
    · obtain ⟨u, rfl⟩ := Option.ne_none_iff_exists'.mp hwh
      have hok : ∀ w ∈ current.filter (fun w => w ∉ sent),
          sendFailed (send_discord (some u) (postOk w) w) = false := by
        intro w _
        rw [hpk w]
        simp [send_discord, sendFailed]
      obtain ⟨h1, h2, h3⟩ := scriptsLoop_all_ok
        (fun w => send_discord (some u) (postOk w) w)
        (current.filter (fun w => w ∉ sent)) sent hok
      refine ⟨?_, ?_⟩
      · simp only [runScripts, if_neg hcard, if_neg hnew, h1,
          Bool.false_eq_true, if_false]
        exact h2
      · simp only [runScripts, if_neg hcard, if_neg hnew, h1,
          Bool.false_eq_true, if_false, Option.getD_some]
        rw [h3]
        ext x
        simp only [Finset.mem_union, List.mem_toFinset, List.mem_filter,
          decide_eq_true_eq]
        constructor
        · rintro (hx | ⟨hx, -⟩)
          · exact Or.inl hx
          · exact Or.inr hx
        · rintro (hx | hx)
          · exact Or.inl hx
          · by_cases hxs : x ∈ sent
            · exact Or.inl hxs
            · exact Or.inr ⟨hx, hxs⟩

/-- Witness for C2 at a concrete input. -/
theorem spec_C2_w :
    ((runGH (some "W") (fun _ => true) true {"A1"}
        [⟨"A1","t","",""⟩, ⟨"A2","t","",""⟩]).saved
      = some (({"A1"} : Finset String).erase NO_WARNINGS ∪
          (([⟨"A1","t","",""⟩, ⟨"A2","t","",""⟩] : List Alert).map
            Alert.id).toFinset))
    ∧ (runScripts (some "W") (fun _ => true) {"A1"} ["A1", "A2"]).dispatched
      = (["A1", "A2"] : List String).filter (fun w => w ∉ ({"A1"} : Finset String)) :=
  ⟨(spec_C2.1 (some "W") (fun _ => true) true {"A1"}
      [⟨"A1","t","",""⟩, ⟨"A2","t","",""⟩] (by decide) (fun _ => rfl)).1,
   (spec_C2.2 (some "W") (fun _ => true) {"A1"} ["A1", "A2"]
      (by simp) (by simp) (fun _ => rfl)).1⟩

/-- Counterexample to C2 as stated: with persisted state `{A1}` and
current feed `[A2]`, the run keeps `A1` in the persisted state even though
`A1` is absent from the current feed — not a full replace. -/
theorem spec_C2_cx :
    "A1" ∈ ((runGH (some "W") (fun _ => true) true {"A1"}
        [⟨"A2","t","",""⟩]).saved.getD ∅)
    ∧ (runGH (some "W") (fun _ => true) true {"A1"}
        [⟨"A2","t","",""⟩]).saved.isSome = true
    ∧ "A1" ∉ (([⟨"A2","t","",""⟩] : List Alert).map Alert.id) := by decide

/-- Claim C3, amended: with a non-empty sentinel-free persisted state and
an empty feed, the cleared announcement is sent and the sentinel is
*added* to the persisted state (state becomes `sent ∪ {NO_WARNINGS}`, not
the singleton `{NO_WARNINGS}` the claim states); a subsequent empty-feed
run whose state contains the sentinel sends nothing and saves nothing. -/
theorem spec_C3 (webhook : Option String) (postOk : String → Bool)
    (sent : Finset String) (h : NO_WARNINGS ∉ sent) :
    runGH webhook postOk true sent [] =
      ⟨[], true, some (insert NO_WARNINGS sent), false⟩
    ∧ ∀ (sent' : Finset String) (contentOk : Bool), NO_WARNINGS ∈ sent' →
        runGH webhook postOk contentOk sent' [] = ⟨[], false, none, false⟩ := by
  constructor
  · have hc : sendFailed (send_to_discord_content webhook true
        "ℹ️ No current QLD BOM warnings.") = false := by
      cases webhook <;> simp [send_to_discord_content, sendFailed]
    simp [runGH, h, hc]
  · intro sent' contentOk h'
    simp [runGH, h']

/-- Witness for C3 at a concrete input. -/
theorem spec_C3_w :
    runGH (some "W") (fun _ => true) true {"A1"} []
      = ⟨[], true, some (insert NO_WARNINGS {"A1"}), false⟩
    ∧ runGH (some "W") (fun _ => true) true {"NO_WARNINGS"} []
      = ⟨[], false, none, false⟩ :=
  ⟨(spec_C3 (some "W") (fun _ => true) {"A1"} (by decide)).1,
   (spec_C3 (some "W") (fun _ => true) {"A1"} (by decide)).2
     {"NO_WARNINGS"} true (by decide)⟩

/-- Counterexample to C3 as stated: after the cleared transition from
state `{A1}`, the persisted state still contains `A1` next to the
sentinel, so it is not the singleton `{NO_WARNINGS}`. -/
theorem spec_C3_cx :
    "A1" ∈ ((runGH (some "W") (fun _ => true) true {"A1"} []).saved.getD ∅)
    ∧ NO_WARNINGS ∈ ((runGH (some "W") (fun _ => true) true {"A1"} []).saved.getD ∅)
    ∧ (runGH (some "W") (fun _ => true) true {"A1"} []).saved.isSome = true
    ∧ "A1" ≠ NO_WARNINGS := by decide

/-- Claim C4, amended: across a sequence of runs that all complete
without an uncaught exception, every alert id other than the
`NO_WARNINGS` sentinel is dispatched by at most one run.  (A run aborted
by a failed send does not save its state, so ids it already dispatched
are re-dispatched later; and an alert whose id is the sentinel itself is
erased from the state at the start of each non-empty run.) -/
theorem spec_C4 (inputs : List RunInput) (st : Finset String)
    (hok : ∀ r ∈ runSeq st inputs, r.failed = false) :
    (runSeq st inputs).Pairwise (fun r1 r2 => ∀ id, id ≠ NO_WARNINGS →
      id ∈ r1.dispatched → id ∉ r2.dispatched) := by
  induction inputs generalizing st with
  | nil => simp [runSeq]
  | cons inp rest ih =>
    have hrun : runSeq st (inp :: rest) =
        runGH inp.webhook inp.postOk inp.contentOk st inp.feed ::
          runSeq ((runGH inp.webhook inp.postOk inp.contentOk st
            inp.feed).saved.getD st) rest := rfl
    rw [hrun] at hok ⊢
    rw [List.pairwise_cons]
    constructor
    · intro r' hr' id hid hd0
      have hf0 : (runGH inp.webhook inp.postOk inp.contentOk st inp.feed).failed
          = false := hok _ (List.mem_cons_self _ _)
      have hsaved : id ∈ (runGH inp.webhook inp.postOk inp.contentOk st
          inp.feed).saved.getD st :=
        runGH_dispatch_saved inp.webhook inp.postOk inp.contentOk st inp.feed
          id hf0 hd0
      exact runSeq_not_dispatched_of_mem id hid rest _ hsaved r' hr'
    · exact ih _ (fun r hr => hok r (List.mem_cons_of_mem _ hr))

/-- Witness for C4 at a concrete input. -/
theorem spec_C4_w :
    (runSeq ∅ [⟨some "W", fun _ => true, true, [⟨"A1","t","",""⟩]⟩,
               ⟨some "W", fun _ => true, true, [⟨"A1","t","",""⟩]⟩]).Pairwise
      (fun r1 r2 => ∀ id, id ≠ NO_WARNINGS →
        id ∈ r1.dispatched → id ∉ r2.dispatched) :=
  spec_C4 [⟨some "W", fun _ => true, true, [⟨"A1","t","",""⟩]⟩,
           ⟨some "W", fun _ => true, true, [⟨"A1","t","",""⟩]⟩] ∅ (by decide)

/-- Counterexample to C4 as stated: (a) a run aborted by a failed send for
`A2` has already dispatched `A1` but saves nothing, and the next run
dispatches `A1` again; (b) an alert whose id is the sentinel is dispatched
by two consecutive successful runs. -/
theorem spec_C4_cx :
    (runSeq ∅ [⟨some "W", fun id => id != "A2", true,
        [⟨"A1","t1","",""⟩, ⟨"A2","t2","",""⟩]⟩,
       ⟨some "W", fun _ => true, true, [⟨"A1","t1","",""⟩]⟩]).map
        RunResult.dispatched = [["A1"], ["A1"]]
    ∧ (runSeq ∅ [⟨some "W", fun _ => true, true, [⟨"NO_WARNINGS","t","",""⟩]⟩,
        ⟨some "W", fun _ => true, true, [⟨"NO_WARNINGS","t","",""⟩]⟩]).map
        RunResult.dispatched = [["NO_WARNINGS"], ["NO_WARNINGS"]]
    ∧ (runSeq ∅ [⟨some "W", fun _ => true, true, [⟨"NO_WARNINGS","t","",""⟩]⟩,
        ⟨some "W", fun _ => true, true, [⟨"NO_WARNINGS","t","",""⟩]⟩]).map
        RunResult.failed = [false, false] := by decide

/-- Claim C5, amended: the chain accepts the first source that yields a
*non-empty* list; a source that succeeds with an empty list is passed over
exactly like a failed one (`if not warnings_list:`), and when the first
two sources fail or come back empty the run's outcome is exactly the CAP
source's outcome — so the run can fail although an earlier source
succeeded (with an empty list), and an empty alert set is accepted only
from the last source. -/
theorem spec_C5 (s1 s2 s3 : Option (List Alert)) :
    (∀ l1, s1 = some l1 → l1 ≠ [] → resolveChain s1 s2 s3 = some l1)
    ∧ ((s1 = none ∨ s1 = some []) →
        ∀ l2, s2 = some l2 → l2 ≠ [] → resolveChain s1 s2 s3 = some l2)
    ∧ ((s1 = none ∨ s1 = some []) → (s2 = none ∨ s2 = some []) →
        resolveChain s1 s2 s3 = s3) := by
  refine ⟨?_, ?_, ?_⟩
  · intro l1 h1 hne
    subst h1
    simp [resolveChain, hne]
  · intro h1 l2 h2 hne
    subst h2
    rcases h1 with h1 | h1 <;> subst h1 <;> simp [resolveChain, hne]
  · intro h1 h2
    rcases h1 with h1 | h1 <;> rcases h2 with h2 | h2 <;> subst h1 <;> subst h2 <;>
      cases s3 <;> simp [resolveChain]

/-- Witness for C5 at concrete inputs. -/
theorem spec_C5_w :
    resolveChain (some [⟨"A1","t","",""⟩]) none none = some [⟨"A1","t","",""⟩]
    ∧ resolveChain (some []) (some [⟨"A2","t","",""⟩]) none
        = some [⟨"A2","t","",""⟩]
    ∧ resolveChain none none (some []) = some [] :=
  ⟨(spec_C5 (some [⟨"A1","t","",""⟩]) none none).1 _ rfl (by decide),
   (spec_C5 (some []) (some [⟨"A2","t","",""⟩]) none).2.1 (Or.inr rfl) _ rfl
     (by decide),
   (spec_C5 none none (some [])).2.2 (Or.inl rfl) (Or.inl rfl)⟩

/-- Counterexample to C5 as stated: a first source that succeeds with an
empty list is not accepted — the chain answers with the second source's
alerts — and the chain fails although the first source succeeded. -/
theorem spec_C5_cx :
    resolveChain (some []) (some [⟨"A1","t","",""⟩]) none
      = some [⟨"A1","t","",""⟩]
    ∧ resolveChain (some []) none none = none := by decide

/-- Claim C6, confirmed: a persisted state file that fails to deserialize
(corrupt or unreadable, modelled as `some none`, or absent, modelled as
`none`) loads as the empty SentState in both variants — the bare
`except` clauses return the empty set, so no exception propagates — and
the run then behaves exactly as a run started from the empty (first-run)
state. -/
theorem spec_C6 :
    load_sent_ids (some none) = ∅
    ∧ load_sent_ids none = ∅
    ∧ load_sent (some none) = ∅
    ∧ (∀ (webhook : Option String) (postOk : String → Bool) (contentOk : Bool)
        (ws : List Alert),
        runGH webhook postOk contentOk (load_sent_ids (some none)) ws
          = runGH webhook postOk contentOk ∅ ws)
    ∧ ∀ (webhook : Option String) (postOk : String → Bool)
        (current : List String),
        runScripts webhook postOk (load_sent (some none)) current
          = runScripts webhook postOk ∅ current :=
  ⟨rfl, rfl, rfl, fun _ _ _ _ => rfl, fun _ _ _ => rfl⟩

/-- Claim C7, amended: in the `.github/scripts` variant the description is
truncated to 1800 (not 2000) characters, and only reaches the message at
all when the link is empty; headline and link are never truncated, and no
overall 2000-character ceiling is enforced on the message.  The `scripts/`
variant applies no truncation at all: the embed description is the
warning text verbatim. -/
theorem spec_C7 (title link desc : String) :
    (link ≠ "" → warningText title link desc
      = "⚠️ **" ++ title ++ "**" ++ "\n" ++ link)
    ∧ (link = "" → desc ≠ "" →
        warningText title link desc
          = "⚠️ **" ++ title ++ "**" ++ "\n" ++ pyTake desc 1800
        ∧ (pyTake desc 1800).length ≤ 1800)
    ∧ ∀ w, (scriptsPayload w).description = w := by
  refine ⟨?_, ?_, fun _ => rfl⟩
  · intro hl
    simp [warningText, hl]
  · intro hl hd
    subst hl
    refine ⟨by simp [warningText, hd], ?_⟩
    have hlen : (pyTake desc 1800).length = min 1800 desc.data.length := by
      simp [pyTake, String.length_mk, List.length_take]
    rw [hlen]
    exact min_le_left _ _

/-- Witness for C7 at concrete inputs. -/
theorem spec_C7_w :
    warningText "Severe Thunderstorm Warning" "http://bom" "ignored"
      = "⚠️ **" ++ "Severe Thunderstorm Warning" ++ "**" ++ "\n" ++ "http://bom"
    ∧ (pyTake "short description" 1800).length ≤ 1800
    ∧ (scriptsPayload "w").description = "w" :=
  ⟨(spec_C7 "Severe Thunderstorm Warning" "http://bom" "ignored").1 (by decide),
   ((spec_C7 "T" "" "short description").2.1 rfl (by decide)).2,
   (spec_C7 "x" "y" "z").2.2 "w"⟩

/-- Counterexample to C7 as stated: a 2100-character headline makes the
sent message longer than 2000 characters (no transport ceiling is
applied), and a 1850-character description is cut at 1800, not at the
claimed 2000-character ceiling (message length 9 + 1800, not 9 + 1850). -/
theorem spec_C7_cx :
    2000 < (warningText (String.mk (List.replicate 2100 'a')) "" "").length
    ∧ (warningText "T" "" (String.mk (List.replicate 1850 'b'))).length = 1809 := by
  constructor
  · simp only [warningText]
    norm_num [String.length_append, String.length_mk]
    decide
  · have hne : ¬(String.mk (List.replicate 1850 'b') = "") := by decide
    simp only [warningText, pyTake]
    rw [if_neg (by simp : ¬("" ≠ ""))]
    rw [if_pos hne]
    norm_num [String.length_append, String.length_mk, List.length_take]
    decide

/-- Claim C8, amended: in the `.github/scripts` variant an absent webhook
URL degrades every sender to a local print that returns normally, and a
run can then never fail; but in the `scripts/` variant `send_discord`
raises `SystemExit` when the webhook URL is absent, so a run with a new
warning fails. -/
theorem spec_C8 :
    (∀ (postOk : Bool) (title link desc : String),
      send_to_discord_warning none postOk title link desc = SendOutcome.skipped)
    ∧ (∀ (postOk : Bool) (content : String),
      send_to_discord_content none postOk content = SendOutcome.skipped)
    ∧ (∀ (postOk : String → Bool) (contentOk : Bool) (sent : Finset String)
        (ws : List Alert), (runGH none postOk contentOk sent ws).failed = false)
    ∧ ∀ (postOk : Bool) (w : String),
      send_discord none postOk w
        = SendOutcome.exitError "DISCORD_WEBHOOK_URL not set." := by
  refine ⟨fun _ _ _ _ => rfl, fun _ _ => rfl, ?_, fun _ _ => rfl⟩
  intro postOk contentOk sent ws
  by_cases hw : ws = []
  · subst hw
    by_cases hs : NO_WARNINGS ∉ sent
    · simp [runGH, hs, send_to_discord_content, sendFailed]
    · simp [runGH, hs]
  · have hok : ∀ w ∈ ws, sendFailed (send_to_discord_warning none
        (postOk w.id) w.title w.link w.description) = false := fun w _ => rfl
    obtain ⟨h1, -, -, -⟩ := notifyLoop_all_ok
      (fun w => send_to_discord_warning none (postOk w.id)
        w.title w.link w.description)
      ws (sent.erase NO_WARNINGS) hok
    simp [runGH, hw, h1]

/-- Counterexample to C8 as stated: a `scripts/` run with an absent
webhook and a new warning fails (SystemExit) instead of degrading to a
local no-op. -/
theorem spec_C8_cx :
    (runScripts none (fun _ => true) {"A1"} ["A1", "A2"]).failed = true := by decide

/-- Claim C9, amended: the RSS parser derives the id by the chain
guid → link → title and so can produce an *empty* id when all three strip
to empty (the `"BOM warning"` default applies to the title field only,
not to the id); it is non-empty whenever the item's stripped title is.
The CAP parser derives the id by identifier → headline — the `web`
element is never used for the id, so the claimed explicit → link →
headline chain does not hold there. -/
theorem spec_C9 :
    (∀ (items : List RssItem), (∀ it ∈ items, pyStrip it.title ≠ "") →
      ∀ a ∈ parse_bom_rss items, a.id ≠ "")
    ∧ (∀ it : RssItem, ∀ g, it.guid = some g → pyStrip g ≠ "" →
        (parse_bom_rss [it]).map Alert.id = [pyStrip g])
    ∧ (∀ it : RssItem, (it.guid.map pyStrip).getD "" = "" →
        pyStrip it.link ≠ "" →
        (parse_bom_rss [it]).map Alert.id = [pyStrip it.link])
    ∧ (∀ it : RssItem, (it.guid.map pyStrip).getD "" = "" →
        pyStrip it.link = "" →
        (parse_bom_rss [it]).map Alert.id = [pyStrip it.title])
    ∧ (∀ ca : CapAlert, capText ca.identifier "" = "" →
        (fetch_cap_parse [ca]).map Alert.id
          = [capText ca.headline "Weather Warning"])
    ∧ ∀ ca : CapAlert, ca.headline = none → capText ca.identifier "" = "" →
        (fetch_cap_parse [ca]).map Alert.id = ["Weather Warning"] := by
  refine ⟨?_, ?_, ?_, ?_, ?_, ?_⟩
  · intro items hstrip a ha
    simp only [parse_bom_rss, List.mem_map] at ha
    obtain ⟨it, hit, rfl⟩ := ha
    by_cases h1 : (it.guid.map pyStrip).getD "" ≠ ""
    · simp [h1]
    · rw [not_not] at h1
      by_cases h2 : pyStrip it.link ≠ ""
      · simp [h1, h2]
      · rw [not_not] at h2
        simpa [h1, h2] using hstrip it hit
  · intro it g hg hne
    simp [parse_bom_rss, hg, hne]
  · intro it hg hne
    simp [parse_bom_rss, hg, hne]
  · intro it hg hl
    simp [parse_bom_rss, hg, hl]
  · intro ca hid
    simp [fetch_cap_parse, hid]
  · intro ca hh hid
    simp only [capText, ne_eq, ite_not] at hid
    simp [fetch_cap_parse, capText, hh, hid]

/-- Witness for C9 at concrete inputs. -/
theorem spec_C9_w :
    (Alert.mk "Severe storm" "Severe storm" "" "").id ≠ ""
    ∧ (parse_bom_rss [⟨"x", "", "", some "GUID1"⟩]).map Alert.id
        = [pyStrip "GUID1"]
    ∧ (parse_bom_rss [⟨"x", "", "http://l", none⟩]).map Alert.id
        = [pyStrip "http://l"]
    ∧ (parse_bom_rss [⟨"ttl", "", "", none⟩]).map Alert.id = [pyStrip "ttl"]
    ∧ (fetch_cap_parse [⟨none, some "H", none, none⟩]).map Alert.id
        = [capText (some "H") "Weather Warning"]
    ∧ (fetch_cap_parse [⟨none, none, none, none⟩]).map Alert.id
        = ["Weather Warning"] :=
  ⟨spec_C9.1 [⟨"Severe storm", "", "", none⟩] (by decide)
      (Alert.mk "Severe storm" "Severe storm" "" "") (by decide),
   spec_C9.2.1 ⟨"x", "", "", some "GUID1"⟩ "GUID1" rfl (by decide),
   spec_C9.2.2.1 ⟨"x", "", "http://l", none⟩ (by decide) (by decide),
   spec_C9.2.2.2.1 ⟨"ttl", "", "", none⟩ (by decide) (by decide),
   spec_C9.2.2.2.2.1 ⟨none, some "H", none, none⟩ (by decide),
   spec_C9.2.2.2.2.2 ⟨none, none, none, none⟩ rfl (by decide)⟩

/-- Counterexample to C9 as stated: an RSS item whose guid is absent and
whose link and title are empty yields an alert with an *empty* id; and a
CAP alert with no identifier but a headline and a web link takes its id
from the headline, not from the link as the claimed fallback chain
requires. -/
theorem spec_C9_cx :
    (parse_bom_rss [⟨"", "", "", none⟩]).map Alert.id = [""]
    ∧ (fetch_cap_parse
        [⟨none, some "Heads Up", none, some "http://example.org/x"⟩]).map
        Alert.id = ["Heads Up"]
    ∧ "Heads Up" ≠ "http://example.org/x" := by decide

/-- Claim C10, amended: a run that completes successfully on a non-empty
alert list persists a state without the `NO_WARNINGS` sentinel — provided
no current alert carries the sentinel itself as its id (the code removes
the sentinel from the loaded state, but an alert with that literal id
would be re-added by the notification loop). -/
theorem spec_C10 (webhook : Option String) (postOk : String → Bool)
    (contentOk : Bool) (sent : Finset String) (ws : List Alert)
    (hws : ws ≠ []) (hid : ∀ w ∈ ws, w.id ≠ NO_WARNINGS)
    (hfail : (runGH webhook postOk contentOk sent ws).failed = false) :
    NO_WARNINGS ∉ (runGH webhook postOk contentOk sent ws).saved.getD sent := by
  by_cases hab : (notifyLoop (fun w => send_to_discord_warning webhook
      (postOk w.id) w.title w.link w.description) ws
      (sent.erase NO_WARNINGS)).2.2 = true
  · simp [runGH, hws, hab] at hfail
  · simp only [Bool.not_eq_true] at hab
    simp only [runGH, if_neg hws, hab, Bool.false_eq_true, if_false,
      Option.getD_some]
    exact notifyLoop_preserve_not_mem
      (fun w => send_to_discord_warning webhook (postOk w.id)
        w.title w.link w.description)
      NO_WARNINGS ws (sent.erase NO_WARNINGS) hid (Finset.not_mem_erase _ _)

/-- Witness for C10 at a concrete input. -/
theorem spec_C10_w :
    NO_WARNINGS ∉ (runGH (some "W") (fun _ => true) true {"NO_WARNINGS"}
      [⟨"A1","t","",""⟩]).saved.getD {"NO_WARNINGS"} :=
  spec_C10 (some "W") (fun _ => true) true {"NO_WARNINGS"} [⟨"A1","t","",""⟩]
    (by decide) (by decide) (by decide)

/-- Counterexample to C10 as stated: a successful run over the single
alert whose id is the literal `NO_WARNINGS` persists a state containing
the sentinel. -/
theorem spec_C10_cx :
    NO_WARNINGS ∈ ((runGH (some "W") (fun _ => true) true ∅
      [⟨"NO_WARNINGS","t","",""⟩]).saved.getD ∅)
    ∧ (runGH (some "W") (fun _ => true) true ∅
      [⟨"NO_WARNINGS","t","",""⟩]).saved.isSome = true
    ∧ (runGH (some "W") (fun _ => true) true ∅
      [⟨"NO_WARNINGS","t","",""⟩]).failed = false
    ∧ ([⟨"NO_WARNINGS","t","",""⟩] : List Alert) ≠ [] := by decide
